import Mathlib

/-!
# Vulkan `Resource` header: memory mapping, resource validity, pool lifecycle

A shallow embedding of `aten/src/ATen/native/vulkan/api/Resource.h`.

* C++ types that occur as template arguments are values of `CType`; the
  standard type traits used by the header are functions on `CType`.
* Native handles (`VmaAllocator`, `VmaAllocation`, `VkBuffer`, ...) are
  natural numbers; `VK_NULL_HANDLE` is `0`.
* The allocator is an explicit state `σ` threaded through every operation,
  reached only through an `AllocatorCapability σ`.
* A template instantiation that the compiler rejects is an `Except.error`
  carrying the diagnostic.
-/

namespace Resource

/-! ## C++ types and the type traits the header uses -/

/-- Types of C++ that can be given as a template argument: a named object type or `void`
(`float`, `void`, `float[4]`, ...) and a pointer, each with its top-level `const`; an
lvalue and an rvalue reference; and a function type, `qualified` when it carries a cv- or
ref-qualifier (`void() const`). -/
inductive CType where
  | named (name : String) (isConst : Bool)
  | pointer (pointee : CType) (isConst : Bool)
  | lref (referred : CType)
  | rref (referred : CType)
  | function (signature : String) (qualified : Bool)
  deriving DecidableEq, Repr

/-- The trait `std::is_const`: top-level const qualification; a reference and a function
type are never const. -/
def CType.isConst : CType → Bool
  | .named _ c => c
  | .pointer _ c => c
  | .lref _ => false
  | .rref _ => false
  | .function _ _ => false

/-- Whether a type is an object type or `void`, that is neither a reference nor a function
type. -/
def CType.isObject : CType → Bool
  | .named _ _ => true
  | .pointer _ _ => true
  | .lref _ => false
  | .rref _ => false
  | .function _ _ => false

/-- The trait `std::add_const_t`: sets the top-level `const` of an object type or `void`
(a type that is already const is returned as it is); a reference and a function type are
returned unchanged. -/
def add_const_t : CType → CType
  | .named n _ => .named n true
  | .pointer p _ => .pointer p true
  | .lref t => .lref t
  | .rref t => .rref t
  | .function sig q => .function sig q

/-- The trait `std::add_pointer_t`: for a reference, the pointer to the referred type; for
a function type with a cv- or ref-qualifier, the type itself; otherwise the pointer to the
type. -/
def add_pointer_t : CType → CType
  | .lref t => .pointer t false
  | .rref t => .pointer t false
  | .function sig true => .function sig true
  | .function sig false => .pointer (.function sig false) false
  | .named n c => .pointer (.named n c) false
  | .pointer p c => .pointer (.pointer p c) false

/-- The trait `std::conditional_t`. -/
def conditional_t (B : Bool) (T F : CType) : CType :=
  if B then T else F

/-- Whether a type is a pointer whose pointee is const-qualified. -/
def CType.isPointerToConst : CType → Bool
  | .pointer p _ => p.isConst
  | _ => false

/-! ## Native handles -/

abbrev VmaAllocator := Nat
abbrev VmaAllocation := Nat
abbrev VkBuffer := Nat
abbrev VkImage := Nat
abbrev VkImageView := Nat
abbrev VkDevice := Nat

/-- The null handle of the Vulkan headers. -/
def VK_NULL_HANDLE : Nat := 0

/-- Modelled from the spec: `VmaAllocationInfo` is declared by the allocator library; the
spec describes it as the allocator-reported metadata "size, offset". -/
structure VmaAllocationInfo where
  offset : Nat
  size : Nat
  deriving DecidableEq, Repr

/-! ## Memory -/

/-- `Resource::Memory`. -/
structure Memory where
  allocator : VmaAllocator
  allocation : VmaAllocation
  allocation_info : VmaAllocationInfo
  deriving DecidableEq, Repr

namespace Memory

namespace Access

/-- `typedef uint8_t Flags`: the 8-bit values are the naturals below 256. -/
abbrev Flags := Nat

/-- `Read = 1u << 0u`. -/
def Read : Flags := 1 <<< 0

/-- `Write = 1u << 1u`. -/
def Write : Flags := 1 <<< 1

/-- The alias template `Access::Pointer<Type, access>`. -/
def Pointer (T : CType) (access : Flags) : CType :=
  add_pointer_t (conditional_t (0 != (access &&& Write)) T (add_const_t T))

end Access

/-- `Resource::Memory::Scope`: its three private members. -/
structure Scope where
  allocator_ : VmaAllocator
  allocation_ : VmaAllocation
  access_ : Access.Flags
  deriving DecidableEq, Repr

/-- Modelled from the spec: the constructor `Scope(allocator, allocation, access)` is only
declared in the header; it stores each argument in the member of the same name. -/
def Scope.ctor (allocator : VmaAllocator) (allocation : VmaAllocation)
    (access : Access.Flags) : Scope :=
  { allocator_ := allocator, allocation_ := allocation, access_ := access }

/-- `Data<Pointer> = Handle<Pointer, Scope>`: a payload of static type `Pointer` (here the
host address it holds) and the guard that releases it. -/
structure Data where
  Pointer : CType
  payload : Nat
  deleter : Scope
  deriving DecidableEq, Repr

end Memory

/-- Modelled from the spec: the allocator capability, "which must expose at minimum
map(allocation) -> host pointer; unmap(allocation); flush(allocation);
invalidate(allocation)", over an explicit allocator state `σ`. -/
structure AllocatorCapability (σ : Type) where
  map : VmaAllocator → VmaAllocation → σ → Nat × σ
  unmap : VmaAllocator → VmaAllocation → σ → σ
  flush : VmaAllocator → VmaAllocation → σ → σ
  invalidate : VmaAllocator → VmaAllocation → σ → σ

/-- Modelled from the spec: the free function `void* map(const Memory& memory)` that both
`map` bodies declare and call is defined outside the header; it "issues a request to the
allocator capability to obtain a host-visible pointer for the allocation". -/
def hostMap {σ : Type} (cap : AllocatorCapability σ) (memory : Memory) (s : σ) : Nat × σ :=
  cap.map memory.allocator memory.allocation s

/-- Modelled from the spec: `Scope::operator()`, the release action of the guard, is only
declared in the header: "for Write-capable mappings, the change must be made visible to
the device (flush)", and "the guard must always call the unmap primitive on release,
unconditionally". -/
def Memory.Scope.release {σ : Type} (cap : AllocatorCapability σ) (scope : Memory.Scope)
    (s : σ) : σ :=
  let s1 :=
    if 0 != (scope.access_ &&& Memory.Access.Write) then
      cap.flush scope.allocator_ scope.allocation_ s
    else s
  cap.unmap scope.allocator_ scope.allocation_ s1

/-- What a call of `map` leaves behind: the returned handle, the receiver after the call,
and the allocator state after the call. -/
structure MapOutcome (σ : Type) where
  data : Memory.Data
  self : Memory
  state : σ

namespace Memory

/-- `map() const &`. `Pointer` is the second template argument; `none` leaves it at the
declared default `Access::Pointer<Type, Access::Read>`. The body never names `Type`. -/
def map_const {σ : Type} (cap : AllocatorCapability σ) (self : Memory) (T : CType)
    (Pointer : Option CType) (s : σ) : MapOutcome σ :=
  let P := Pointer.getD (Access.Pointer T Access.Read)
  let r := hostMap cap self s
  { data := { Pointer := P, payload := r.1,
              deleter := Scope.ctor self.allocator self.allocation Access.Read },
    self := self,
    state := r.2 }

/-- The `static_assert` of `map() &`. -/
def map_static_assert (kAccess : Access.Flags) : Except String Unit :=
  if (kAccess == Access.Read) || (kAccess == Access.Write) ||
      (kAccess == (Access.Read ||| Access.Write)) then
    .ok ()
  else
    .error "Invalid memory access!"

/-- `map() &`, instantiated: either the compiler rejects the instantiation, or it yields
the function that runs at the call. `Pointer` is the third template argument; `none`
leaves it at the declared default `Access::Pointer<Type, kAccess>`. -/
def map_mut {σ : Type} (cap : AllocatorCapability σ) (self : Memory) (T : CType)
    (kAccess : Access.Flags) (Pointer : Option CType) : Except String (σ → MapOutcome σ) :=
  match map_static_assert kAccess with
  | .error e => .error e
  | .ok () =>
    .ok (fun s =>
      let P := Pointer.getD (Access.Pointer T kAccess)
      let r := hostMap cap self s
      { data := { Pointer := P, payload := r.1,
                  deleter := Scope.ctor self.allocator self.allocation kAccess },
        self := self,
        state := r.2 })

/-- `map() &` as one step over the allocator state: the result of the call (or the
diagnostic) and the allocator state afterwards. -/
def map_mut_step {σ : Type} (cap : AllocatorCapability σ) (self : Memory) (T : CType)
    (kAccess : Access.Flags) (Pointer : Option CType) (s : σ) :
    Except String Memory.Data × σ :=
  match map_mut cap self T kAccess Pointer with
  | .error e => (.error e, s)
  | .ok run => (.ok (run s).data, (run s).state)

end Memory

/-- An allocator state that records its calls: the allocations mapped, flushed and
unmapped so far, most recent first. -/
structure Recorder where
  mapped : List VmaAllocation
  flushed : List VmaAllocation
  unmapped : List VmaAllocation
  deriving DecidableEq, Repr

/-- The capability over `Recorder`: every call is recorded; the host address of an
allocation is `4096 * allocation`. -/
def recording : AllocatorCapability Recorder where
  map := fun _ a s => (4096 * a, { s with mapped := a :: s.mapped })
  unmap := fun _ a s => { s with unmapped := a :: s.unmapped }
  flush := fun _ a s => { s with flushed := a :: s.flushed }
  invalidate := fun _ _ s => s

/-! ## Overload set of `Memory::map` -/

/-- The kind of a template parameter of a `map` declaration: `typename`, or a value of
`Access::Flags`. -/
inductive ParamKind where
  | type
  | flags
  deriving DecidableEq, Repr

/-- A template parameter: its kind, and whether the declaration gives it a default. -/
structure TemplateParam where
  kind : ParamKind
  hasDefault : Bool
  deriving DecidableEq, Repr

/-- The ref-qualifier of a member function: `&` or `&&`. -/
inductive RefQualifier where
  | lvalue
  | rvalue
  deriving DecidableEq, Repr

/-- A declaration of a member function template `map`, as written in `Memory`. -/
structure MapDecl where
  params : List TemplateParam
  isConst : Bool
  ref : RefQualifier
  isDeleted : Bool
  isPrivate : Bool
  deriving DecidableEq, Repr

/-- `template<typename Type, typename Pointer = ...> Data<Pointer> map() const &;` -/
def decl_map_const : MapDecl :=
  { params := [⟨.type, false⟩, ⟨.type, true⟩],
    isConst := true, ref := .lvalue, isDeleted := false, isPrivate := false }

/-- `template<typename Type, Access::Flags kAccess, typename Pointer = ...>
Data<Pointer> map() &;` -/
def decl_map_mut : MapDecl :=
  { params := [⟨.type, false⟩, ⟨.flags, false⟩, ⟨.type, true⟩],
    isConst := false, ref := .lvalue, isDeleted := false, isPrivate := false }

/-- `template<typename Type, typename Pointer> Data<Pointer> map() const && = delete;` -/
def decl_map_const_rvalue : MapDecl :=
  { params := [⟨.type, false⟩, ⟨.type, false⟩],
    isConst := true, ref := .rvalue, isDeleted := true, isPrivate := true }

/-- `template<typename Type, Access::Flags kAccess, typename Pointer>
Data<Pointer> map() && = delete;` -/
def decl_map_mut_rvalue : MapDecl :=
  { params := [⟨.type, false⟩, ⟨.flags, false⟩, ⟨.type, false⟩],
    isConst := false, ref := .rvalue, isDeleted := true, isPrivate := true }

/-- The four declarations named `map` in `Memory`, in source order. -/
def map_decls : List MapDecl :=
  [decl_map_const, decl_map_mut, decl_map_const_rvalue, decl_map_mut_rvalue]

/-- An explicit template argument of a call `m.map<...>()`. -/
inductive TemplateArg where
  | type (t : CType)
  | value (v : Nat)
  deriving DecidableEq, Repr

/-- The object expression of a call: its constness and its value category. -/
structure Receiver where
  isConst : Bool
  isRvalue : Bool
  deriving DecidableEq, Repr

/-- Whether an explicit argument fits a parameter: a type for `typename`, a constant that
fits `uint8_t` for `Access::Flags`. -/
def argFits : TemplateParam → TemplateArg → Bool
  | ⟨.type, _⟩, .type _ => true
  | ⟨.flags, _⟩, .value v => decide (v < 256)
  | _, _ => false

/-- Template argument deduction for a call `map<args>()`: `map` has no function parameter,
so every template parameter must be given explicitly or have a default; otherwise
deduction fails and the declaration is not a candidate. -/
def deduces : List TemplateParam → List TemplateArg → Bool
  | [], [] => true
  | [], _ :: _ => false
  | p :: ps, [] => p.hasDefault && deduces ps []
  | p :: ps, a :: as => argFits p a && deduces ps as

/-- Whether the implicit object parameter of a declaration binds to the receiver: `&` needs
a non-const lvalue, `const &` binds to anything, `&&` needs a non-const rvalue,
`const &&` needs an rvalue. -/
def bindsReceiver (d : MapDecl) (r : Receiver) : Bool :=
  (d.isConst || !r.isConst) &&
    (match d.ref with
     | .lvalue => d.isConst || !r.isRvalue
     | .rvalue => r.isRvalue)

/-- A candidate is viable for a call when deduction succeeds and the receiver binds. -/
def viable (r : Receiver) (args : List TemplateArg) (d : MapDecl) : Bool :=
  deduces d.params args && bindsReceiver d r

/-- Ranking of two viable candidates by their implicit object parameter: on an rvalue
receiver an rvalue reference is better than an lvalue reference; with the same kind of
reference the less const-qualified is better. -/
def betterThan (r : Receiver) (a b : MapDecl) : Bool :=
  (r.isRvalue && a.ref == .rvalue && b.ref == .lvalue) ||
    (a.ref == b.ref && !a.isConst && b.isConst)

/-- Outcome of overload resolution. -/
inductive Resolution where
  | selected (d : MapDecl)
  | deletedSelected (d : MapDecl)
  | noMatch
  | ambiguous
  deriving DecidableEq, Repr

/-- Overload resolution of `receiver.map<args>()` over a list of declarations. -/
def resolve (decls : List MapDecl) (r : Receiver) (args : List TemplateArg) : Resolution :=
  let vs := decls.filter (viable r args)
  match vs.filter (fun a => vs.all (fun b => a == b || betterThan r a b)) with
  | [d] => if d.isDeleted then .deletedSelected d else .selected d
  | [] => if vs.isEmpty then .noMatch else .ambiguous
  | _ :: _ :: _ => .ambiguous

/-- Whether the call `receiver.map<args>()` compiles, as far as overload resolution
decides it. -/
def callResolves (r : Receiver) (args : List TemplateArg) : Bool :=
  match resolve map_decls r args with
  | .selected _ => true
  | _ => false

/-! ## Buffer and Image -/

/-- `Resource::Buffer::Descriptor`. -/
structure Buffer.Descriptor where
  size : Nat
  usage_buffer : Nat
  usage_memory : Nat
  deriving DecidableEq, Repr

/-- `Resource::Buffer`. -/
structure Buffer where
  handle : VkBuffer
  memory : Memory
  deriving DecidableEq, Repr

/-- `Resource::Buffer::operator bool`. -/
def Buffer.toBool (self : Buffer) : Bool :=
  VK_NULL_HANDLE != self.handle

/-- `VkExtent3D`. -/
structure VkExtent3D where
  width : Nat
  height : Nat
  depth : Nat
  deriving DecidableEq, Repr

/-- `Resource::Image::Descriptor`. -/
structure Image.Descriptor where
  type : Nat
  format : Nat
  extent : VkExtent3D
  usage_image : Nat
  usage_memory : Nat
  view_type : Nat
  view_format : Nat
  deriving DecidableEq, Repr

/-- `Resource::Image`. -/
structure Image where
  handle : VkImage
  view : VkImageView
  memory : Memory
  deriving DecidableEq, Repr

/-- `Resource::Image::operator bool`. -/
def Image.toBool (self : Image) : Bool :=
  VK_NULL_HANDLE != self.handle

/-! ## Pool -/

/-- Modelled from the spec: the part of the allocator capability the Pool uses,
"create/destroy-buffer(descriptor) -> (native handle, allocation),
create/destroy-image(descriptor) -> (native handle, view, allocation)", with the image
view created in a step of its own that can fail after the image was allocated. A
creation the capability cannot satisfy returns `none`. -/
structure ResourceCapability (σ : Type) where
  createBuffer : VmaAllocator → Buffer.Descriptor → σ →
    Option (VkBuffer × VmaAllocation × VmaAllocationInfo) × σ
  destroyBuffer : Buffer → σ → σ
  createImage : VmaAllocator → Image.Descriptor → σ →
    Option (VkImage × VmaAllocation × VmaAllocationInfo) × σ
  createImageView : VkDevice → VkImage → Image.Descriptor → σ → Option VkImageView × σ
  releaseImage : VmaAllocator → VkImage → VmaAllocation → σ → σ
  destroyImage : Image → σ → σ

/-- An owning registry entry, `Handle<Buffer, void(*)(const Buffer&)>` and
`Handle<Image, void(*)(const Image&)>`: the value and its destructor. -/
structure Owned (α σ : Type) where
  value : α
  destructor : α → σ → σ

/-- Running the destructor of an entry. -/
def Owned.destroy {α σ : Type} (e : Owned α σ) (s : σ) : σ :=
  e.destructor e.value s

/-- `Resource::Pool`: its four private members. -/
structure Pool (σ : Type) where
  device_ : VkDevice
  allocator_ : VmaAllocator
  buffers_ : List (Owned Buffer σ)
  images_ : List (Owned Image σ)

/-- The error of a failed allocation. -/
inductive PoolError where
  | AllocationFailure
  deriving DecidableEq, Repr

namespace Pool

/-- Modelled from the spec: the constructor `Pool(gpu)` is only declared in the header; a new
Pool holds its device, its own allocator and two empty registries. -/
def init {σ : Type} (device : VkDevice) (allocator : VmaAllocator) : Pool σ :=
  { device_ := device, allocator_ := allocator, buffers_ := [], images_ := [] }

/-- Modelled from the spec: `Pool::allocate(const Buffer::Descriptor&)` is only declared in
the header. It "requests an allocation from the allocator capability sized/flagged per the
descriptor, wraps the resulting native handle and Memory into a Buffer value, appends an
owning entry {value, destructor} to the buffer registry ... and returns the Buffer value";
on failure "the Pool does not partially register a failed resource". -/
def allocate_buffer {σ : Type} (cap : ResourceCapability σ) (pool : Pool σ)
    (descriptor : Buffer.Descriptor) (s : σ) : Except PoolError Buffer × Pool σ × σ :=
  match cap.createBuffer pool.allocator_ descriptor s with
  | (none, s1) => (.error .AllocationFailure, pool, s1)
  | (some (handle, allocation, info), s1) =>
    let buffer : Buffer :=
      { handle := handle,
        memory := { allocator := pool.allocator_, allocation := allocation,
                    allocation_info := info } }
    (.ok buffer,
     { pool with buffers_ := pool.buffers_ ++ [⟨buffer, cap.destroyBuffer⟩] },
     s1)

/-- Modelled from the spec: `Pool::allocate(const Image::Descriptor&)` is only declared in
the header. It is "analogous, additionally creating the image view per the descriptor's
view sub-descriptor; if view creation fails after the image was allocated, the image
allocation must be released before propagating the failure". -/
def allocate_image {σ : Type} (cap : ResourceCapability σ) (pool : Pool σ)
    (descriptor : Image.Descriptor) (s : σ) : Except PoolError Image × Pool σ × σ :=
  match cap.createImage pool.allocator_ descriptor s with
  | (none, s1) => (.error .AllocationFailure, pool, s1)
  | (some (handle, allocation, info), s1) =>
    match cap.createImageView pool.device_ handle descriptor s1 with
    | (none, s2) =>
      (.error .AllocationFailure, pool,
       cap.releaseImage pool.allocator_ handle allocation s2)
    | (some view, s2) =>
      let image : Image :=
        { handle := handle, view := view,
          memory := { allocator := pool.allocator_, allocation := allocation,
                      allocation_info := info } }
      (.ok image,
       { pool with images_ := pool.images_ ++ [⟨image, cap.destroyImage⟩] },
       s2)

/-- Modelled from the spec: `Pool::purge()` is only declared in the header. It "destroys
every registered Buffer and Image (invoking each entry's destructor ...), then clears both
registries". -/
def purge {σ : Type} (pool : Pool σ) (s : σ) : Pool σ × σ :=
  let s1 := pool.buffers_.foldl (fun st e => e.destroy st) s
  let s2 := pool.images_.foldl (fun st e => e.destroy st) s1
  ({ pool with buffers_ := [], images_ := [] }, s2)

end Pool

/-- A call of one of the two `allocate` overloads. -/
inductive Request where
  | buffer (descriptor : Buffer.Descriptor)
  | image (descriptor : Image.Descriptor)
  deriving DecidableEq, Repr

/-- A sequence of `allocate` calls on a Pool, failed ones included. -/
def Pool.run {σ : Type} (cap : ResourceCapability σ) :
    List Request → Pool σ → σ → Pool σ × σ
  | [], pool, s => (pool, s)
  | .buffer d :: rest, pool, s =>
    let r := Pool.allocate_buffer cap pool d s
    Pool.run cap rest r.2.1 r.2.2
  | .image d :: rest, pool, s =>
    let r := Pool.allocate_image cap pool d s
    Pool.run cap rest r.2.1 r.2.2

/-- The values held by a registry, in order. -/
def registered {α σ : Type} (entries : List (Owned α σ)) : List α :=
  entries.map (fun e => e.value)

/-- An allocator state for examples: the next fresh handle and the handles destroyed so
far. -/
structure Bump where
  next : Nat
  destroyed : List Nat
  deriving DecidableEq, Repr

/-- A capability over `Bump` that hands out fresh non-null handles and refuses a buffer of
size zero and an image with an empty extent. -/
def bump : ResourceCapability Bump where
  createBuffer := fun _ d s =>
    if d.size = 0 then (none, s)
    else (some (s.next + 1, s.next + 1, ⟨0, d.size⟩), { s with next := s.next + 1 })
  destroyBuffer := fun b s => { s with destroyed := b.handle :: s.destroyed }
  createImage := fun _ d s =>
    if d.extent.width * d.extent.height * d.extent.depth = 0 then (none, s)
    else
      (some (s.next + 1, s.next + 1,
          ⟨0, 4 * (d.extent.width * d.extent.height * d.extent.depth)⟩),
        { s with next := s.next + 1 })
  createImageView := fun _ _ _ s => (some (s.next + 1), { s with next := s.next + 1 })
  releaseImage := fun _ h _ s => { s with destroyed := h :: s.destroyed }
  destroyImage := fun i s => { s with destroyed := i.handle :: s.destroyed }

/-- The Pool and the allocator state after a new Pool has served a sequence of `allocate`
calls and has then been purged. -/
def purgedAfter {σ : Type} (cap : ResourceCapability σ) (device : VkDevice)
    (allocator : VmaAllocator) (requests : List Request) (s0 : σ) : Pool σ × σ :=
  (Pool.run cap requests (Pool.init device allocator) s0).1.purge
    (Pool.run cap requests (Pool.init device allocator) s0).2

/-- The requests used in the examples: a buffer, an image, a buffer. -/
def sampleRequests : List Request :=
  [.buffer ⟨16, 0, 0⟩, .image ⟨1, 0, ⟨2, 2, 1⟩, 0, 0, 1, 0⟩, .buffer ⟨8, 0, 0⟩]

/-! ## Example values -/

/-- The type `float`. -/
def float : CType := .named "float" false

/-- The type `float*`. -/
def floatPtr : CType := .pointer float false

/-- The type `const float`. -/
def constFloat : CType := .named "float" true

/-- The type `float&`. -/
def floatRef : CType := .lref float

/-- The type `const float*`. -/
def constFloatPtr : CType := .pointer constFloat false

/-- A Memory value for examples. -/
def sampleMemory : Memory :=
  { allocator := 1, allocation := 7, allocation_info := ⟨0, 64⟩ }

/-- The recorder before any call. -/
def Recorder.empty : Recorder :=
  { mapped := [], flushed := [], unmapped := [] }

/-! ## Facts about the flag values and the assertion -/

theorem Read_eq : Memory.Access.Read = 1 := rfl

theorem Write_eq : Memory.Access.Write = 2 := rfl

theorem ReadWrite_eq : (Memory.Access.Read ||| Memory.Access.Write) = 3 := rfl

theorem map_static_assert_ok (kAccess : Nat) (h : kAccess = 1 ∨ kAccess = 2 ∨ kAccess = 3) :
    Memory.map_static_assert kAccess = .ok () := by
  rcases h with rfl | rfl | rfl <;> rfl

theorem map_static_assert_error (kAccess : Nat)
    (h : ¬ (kAccess = 1 ∨ kAccess = 2 ∨ kAccess = 3)) :
    Memory.map_static_assert kAccess = .error "Invalid memory access!" := by
  have h1 : kAccess ≠ 1 := fun e => h (Or.inl e)
  have h2 : kAccess ≠ 2 := fun e => h (Or.inr (Or.inl e))
  have h3 : kAccess ≠ 3 := fun e => h (Or.inr (Or.inr e))
  simp [Memory.map_static_assert, Read_eq, Write_eq, ReadWrite_eq, h1, h2, h3]

theorem map_mut_of_valid {σ : Type} (cap : AllocatorCapability σ) (self : Memory) (T : CType)
    (kAccess : Nat) (Pointer : Option CType)
    (h : kAccess = 1 ∨ kAccess = 2 ∨ kAccess = 3) :
    Memory.map_mut cap self T kAccess Pointer =
      .ok (fun s =>
        { data := { Pointer := Pointer.getD (Memory.Access.Pointer T kAccess),
                    payload := (hostMap cap self s).1,
                    deleter := Memory.Scope.ctor self.allocator self.allocation kAccess },
          self := self,
          state := (hostMap cap self s).2 }) := by
  simp [Memory.map_mut, map_static_assert_ok kAccess h]

theorem map_mut_of_invalid {σ : Type} (cap : AllocatorCapability σ) (self : Memory)
    (T : CType) (kAccess : Nat) (Pointer : Option CType)
    (h : ¬ (kAccess = 1 ∨ kAccess = 2 ∨ kAccess = 3)) :
    Memory.map_mut cap self T kAccess Pointer = .error "Invalid memory access!" := by
  simp [Memory.map_mut, map_static_assert_error kAccess h]

theorem map_mut_accepts_iff_valid {σ : Type} (cap : AllocatorCapability σ) (self : Memory)
    (T : CType) (kAccess : Nat) (Pointer : Option CType) :
    (∃ run, Memory.map_mut cap self T kAccess Pointer = .ok run) ↔
      (kAccess = 1 ∨ kAccess = 2 ∨ kAccess = 3) := by
  constructor
  · rintro ⟨run, hrun⟩
    by_contra h
    rw [map_mut_of_invalid cap self T kAccess Pointer h] at hrun
    cases hrun
  · intro h
    exact ⟨_, map_mut_of_valid cap self T kAccess Pointer h⟩

/-- C1: for every flag value `kAccess` (every 8-bit value included), the instantiation of
`map() &` is rejected with the diagnostic "Invalid memory access!" if and only if
`kAccess` is none of Read (1), Write (2), Read|Write (3), whatever the other template
arguments; and with `Pointer` left at its default or given as a pointer type, the
instantiation is accepted if and only if `kAccess` is 1, 2 or 3. -/
theorem map_mut_accepts_exactly_read_write_readwrite {σ : Type}
    (cap : AllocatorCapability σ) (self : Memory) (T : CType) (kAccess : Memory.Access.Flags) :
    (∀ Pointer : Option CType,
        Memory.map_mut cap self T kAccess Pointer = .error "Invalid memory access!" ↔
          ¬ (kAccess = 1 ∨ kAccess = 2 ∨ kAccess = 3)) ∧
    ((∃ run, Memory.map_mut cap self T kAccess none = .ok run) ↔
        (kAccess = Memory.Access.Read ∨ kAccess = Memory.Access.Write ∨
          kAccess = (Memory.Access.Read ||| Memory.Access.Write))) ∧
    (∀ (p : CType) (c : Bool),
        (∃ run, Memory.map_mut cap self T kAccess (some (.pointer p c)) = .ok run) ↔
          (kAccess = 1 ∨ kAccess = 2 ∨ kAccess = 3)) := by
  refine ⟨fun Pointer => ⟨fun herr hv => ?_, map_mut_of_invalid cap self T kAccess Pointer⟩,
    ?_, fun p c => map_mut_accepts_iff_valid cap self T kAccess _⟩
  · rw [map_mut_of_valid cap self T kAccess Pointer hv] at herr
    cases herr
  · rw [ReadWrite_eq, Read_eq, Write_eq]
    exact map_mut_accepts_iff_valid cap self T kAccess none

/-! ## The pointer alias -/

theorem Pointer_of_write_absent (T : CType) (access : Nat)
    (h : access &&& Memory.Access.Write = 0) :
    Memory.Access.Pointer T access = add_pointer_t (add_const_t T) := by
  simp [Memory.Access.Pointer, conditional_t, h]

theorem Pointer_of_write_present (T : CType) (access : Nat)
    (h : access &&& Memory.Access.Write ≠ 0) :
    Memory.Access.Pointer T access = add_pointer_t T := by
  have h0 : ¬ (0 = access &&& Memory.Access.Write) := fun e => h e.symm
  simp [Memory.Access.Pointer, conditional_t, h0]

theorem add_pointer_t_of_object (T : CType) (hObj : T.isObject = true) :
    add_pointer_t T = .pointer T false := by
  cases T <;> first | rfl | cases hObj

theorem add_const_t_of_object (T : CType) (hObj : T.isObject = true) :
    (add_const_t T).isObject = true ∧ (add_const_t T).isConst = true := by
  cases T <;> first | exact ⟨rfl, rfl⟩ | cases hObj

theorem Pointer_to_const_of_write_absent (T : CType) (access : Nat) (hObj : T.isObject = true)
    (h : access &&& Memory.Access.Write = 0) :
    Memory.Access.Pointer T access = .pointer (add_const_t T) false ∧
    (Memory.Access.Pointer T access).isPointerToConst = true := by
  obtain ⟨ho, hc⟩ := add_const_t_of_object T hObj
  rw [Pointer_of_write_absent T access h, add_pointer_t_of_object _ ho]
  exact ⟨rfl, hc⟩

theorem Pointer_to_same_of_write_present (T : CType) (access : Nat)
    (hObj : T.isObject = true) (h : access &&& Memory.Access.Write ≠ 0) :
    Memory.Access.Pointer T access = .pointer T false ∧
    (Memory.Access.Pointer T access).isPointerToConst = T.isConst := by
  rw [Pointer_of_write_present T access h, add_pointer_t_of_object _ hObj]
  exact ⟨rfl, rfl⟩

theorem Pointer_isPointerToConst_iff (T : CType) (access : Nat) (hObj : T.isObject = true)
    (hT : T.isConst = false) :
    (Memory.Access.Pointer T access).isPointerToConst = true ↔
      access &&& Memory.Access.Write = 0 := by
  by_cases hw : access &&& Memory.Access.Write = 0
  · simp [(Pointer_to_const_of_write_absent T access hObj hw).2, hw]
  · simp [(Pointer_to_same_of_write_present T access hObj hw).2, hT, hw]

/-- C3, as stated, fails: the read-only overload instantiated as `map<float, float*>()`
returns a `float*`, a pointer to non-const that is not `const float*`, and its guard
records Read; and instantiated as `map<float&>()`, with `Pointer` left at its default, it
returns a `float*` as well. -/
theorem map_const_can_return_pointer_to_non_const :
    ((Memory.map_const recording sampleMemory float (some floatPtr)
        Recorder.empty).data.Pointer = floatPtr ∧
      floatPtr ≠ constFloatPtr ∧
      floatPtr.isPointerToConst = false ∧
      (Memory.map_const recording sampleMemory float (some floatPtr)
        Recorder.empty).data.deleter.access_ = Memory.Access.Read) ∧
    ((Memory.map_const recording sampleMemory floatRef none Recorder.empty).data.Pointer
        = floatPtr ∧
      (Memory.map_const recording sampleMemory floatRef none
        Recorder.empty).data.deleter.access_ = Memory.Access.Read) := by
  decide

/-- C3, amended: for every Memory value and every element type `T` that is an object type
or `void`, the read-only overload with `Pointer` left at its default returns a
pointer-to-const `T`; for every element type, with `Pointer` at its default the returned
pointer has the type `Access::Pointer<T, Read>`, an instantiation that supplies a pointer
type as `Pointer` returns exactly that type, and in every instantiation the guard records
Read. -/
theorem map_const_default_pointer_is_const {σ : Type} (cap : AllocatorCapability σ)
    (self : Memory) (T : CType) (s : σ) (hObj : T.isObject = true) :
    (Memory.map_const cap self T none s).data.Pointer = .pointer (add_const_t T) false ∧
    (add_const_t T).isConst = true ∧
    (Memory.map_const cap self T none s).data.Pointer.isPointerToConst = true ∧
    (∀ U : CType, (Memory.map_const cap self U none s).data.Pointer
        = Memory.Access.Pointer U Memory.Access.Read) ∧
    (∀ (U p : CType) (c : Bool),
        (Memory.map_const cap self U (some (.pointer p c)) s).data.Pointer = .pointer p c) ∧
    (∀ (U : CType) (Pointer : Option CType),
        (Memory.map_const cap self U Pointer s).data.deleter.access_
          = Memory.Access.Read) := by
  have hd : (Memory.map_const cap self T none s).data.Pointer
      = Memory.Access.Pointer T Memory.Access.Read := rfl
  obtain ⟨h1, h2⟩ := Pointer_to_const_of_write_absent T Memory.Access.Read hObj (by decide)
  refine ⟨hd.trans h1, (add_const_t_of_object T hObj).2, ?_, fun U => rfl,
    fun U p c => rfl, fun U Pointer => rfl⟩
  rw [hd]
  exact h2

/-- Witness of the amended C3 at `T = float`: the default instantiation returns
`const float*`. -/
theorem map_const_default_pointer_is_const_witness :
    float.isObject = true ∧
    (Memory.map_const recording sampleMemory float none Recorder.empty).data.Pointer
      = constFloatPtr :=
  ⟨rfl, (map_const_default_pointer_is_const recording sampleMemory float Recorder.empty rfl).1⟩

/-- C4, as stated, fails: the mutable overload instantiated as
`map<float, Access::Read, float*>()` is accepted and returns a `float*`, a pointer to
non-const, together with a guard that records Read; instantiated as
`map<float&, Access::Read>()`, with `Pointer` left at its default, it returns a `float*`
with a Read guard as well; and instantiated as `map<const float, Access::Write>()` it
returns a `const float*` although Write is present. -/
theorem map_mut_pointer_constness_can_differ_from_access :
    (Memory.map_mut_step recording sampleMemory float Memory.Access.Read (some floatPtr)
        Recorder.empty
      = (.ok { Pointer := floatPtr, payload := 28672,
               deleter := { allocator_ := 1, allocation_ := 7,
                            access_ := Memory.Access.Read } },
         { mapped := [7], flushed := [], unmapped := [] }) ∧
      floatPtr.isPointerToConst = false ∧
      floatPtr ≠ Memory.Access.Pointer float Memory.Access.Read) ∧
    Memory.map_mut_step recording sampleMemory floatRef Memory.Access.Read none
        Recorder.empty
      = (.ok { Pointer := floatPtr, payload := 28672,
               deleter := { allocator_ := 1, allocation_ := 7,
                            access_ := Memory.Access.Read } },
         { mapped := [7], flushed := [], unmapped := [] }) ∧
    (Memory.map_mut_step recording sampleMemory constFloat Memory.Access.Write none
        Recorder.empty
      = (.ok { Pointer := constFloatPtr, payload := 28672,
               deleter := { allocator_ := 1, allocation_ := 7,
                            access_ := Memory.Access.Write } },
         { mapped := [7], flushed := [], unmapped := [] }) ∧
      constFloatPtr.isPointerToConst = true) := by
  refine ⟨⟨rfl, by decide, by decide⟩, rfl, rfl, by decide⟩

/-- C4, amended: for every Memory value, every accepted flag value `kAccess` and every
element type `T` that is an object type or `void`, the mutable overload with `Pointer`
left at its default returns a pointer of type `Access::Pointer<T, kAccess>` (pointee
`const T` when Write is absent, `T` itself when Write is present, so for a `T` that is not
itself const the pointee is const exactly when Write is absent) and a guard that records
`kAccess`, so a pointer to non-const is never paired with a Read guard; for every element
type, an instantiation that supplies a pointer type as `Pointer` returns exactly that
type, its guard recording `kAccess`. -/
theorem map_mut_default_pointer_matches_access {σ : Type} (cap : AllocatorCapability σ)
    (self : Memory) (T : CType) (kAccess : Memory.Access.Flags) (s : σ)
    (h : kAccess = Memory.Access.Read ∨ kAccess = Memory.Access.Write ∨
      kAccess = (Memory.Access.Read ||| Memory.Access.Write))
    (hObj : T.isObject = true) :
    (∃ run, Memory.map_mut cap self T kAccess none = .ok run ∧
      (run s).data.Pointer = Memory.Access.Pointer T kAccess ∧
      (kAccess &&& Memory.Access.Write = 0 →
        (run s).data.Pointer = .pointer (add_const_t T) false ∧
        (add_const_t T).isConst = true) ∧
      (kAccess &&& Memory.Access.Write ≠ 0 → (run s).data.Pointer = .pointer T false) ∧
      (T.isConst = false →
        ((run s).data.Pointer.isPointerToConst = true ↔
          kAccess &&& Memory.Access.Write = 0)) ∧
      (run s).data.deleter.access_ = kAccess ∧
      ¬ ((run s).data.Pointer.isPointerToConst = false ∧
          (run s).data.deleter.access_ = Memory.Access.Read)) ∧
    (∀ (U p : CType) (c : Bool),
      ∃ run, Memory.map_mut cap self U kAccess (some (.pointer p c)) = .ok run ∧
        (run s).data.Pointer = .pointer p c ∧
        (run s).data.deleter.access_ = kAccess) := by
  have hv : kAccess = 1 ∨ kAccess = 2 ∨ kAccess = 3 := by
    rw [ReadWrite_eq, Read_eq, Write_eq] at h
    exact h
  refine ⟨⟨_, map_mut_of_valid cap self T kAccess none hv, rfl, ?_, ?_, ?_, rfl, ?_⟩,
    fun U p c => ⟨_, map_mut_of_valid cap self U kAccess _ hv, rfl, rfl⟩⟩
  · intro hw
    exact ⟨(Pointer_to_const_of_write_absent T kAccess hObj hw).1,
      (add_const_t_of_object T hObj).2⟩
  · intro hw
    exact (Pointer_to_same_of_write_present T kAccess hObj hw).1
  · intro hT
    exact Pointer_isPointerToConst_iff T kAccess hObj hT
  · rintro ⟨hnc, hread⟩
    have hk : kAccess = Memory.Access.Read := hread
    subst hk
    have hc := (Pointer_to_const_of_write_absent T Memory.Access.Read hObj (by decide)).2
    have hnc2 : (Memory.Access.Pointer T Memory.Access.Read).isPointerToConst = false := hnc
    rw [hc] at hnc2
    cases hnc2

/-- Witness of the amended C4 at `T = float`, `kAccess = Write`. -/
theorem map_mut_default_pointer_matches_access_witness :
    (Memory.Access.Write = Memory.Access.Read ∨ Memory.Access.Write = Memory.Access.Write ∨
      Memory.Access.Write = (Memory.Access.Read ||| Memory.Access.Write)) ∧
    float.isObject = true ∧
    ∃ run, Memory.map_mut recording sampleMemory float Memory.Access.Write none = .ok run ∧
      (run Recorder.empty).data.Pointer = floatPtr ∧
      (run Recorder.empty).data.deleter.access_ = Memory.Access.Write := by
  refine ⟨Or.inr (Or.inl rfl), rfl, ?_⟩
  obtain ⟨run, hrun, hp, -, -, -, ha, -⟩ :=
    (map_mut_default_pointer_matches_access recording sampleMemory float
      Memory.Access.Write Recorder.empty (Or.inr (Or.inl rfl)) rfl).1
  refine ⟨run, hrun, ?_, ha⟩
  rw [hp]
  decide

/-- C5: for every Memory value and every flag value outside {Read, Write, Read|Write}
(whatever the other template arguments), `map` as a step over the allocator state ends in
the error "Invalid memory access!" and leaves the allocator state as it was, so that any
count of allocator calls read off the state is unchanged. -/
theorem map_mut_invalid_access_leaves_allocator_untouched {σ : Type}
    (cap : AllocatorCapability σ) (self : Memory) (T : CType) (kAccess : Memory.Access.Flags)
    (Pointer : Option CType) (s : σ)
    (h : ¬ (kAccess = Memory.Access.Read ∨ kAccess = Memory.Access.Write ∨
      kAccess = (Memory.Access.Read ||| Memory.Access.Write))) :
    Memory.map_mut_step cap self T kAccess Pointer s = (.error "Invalid memory access!", s) ∧
    (Memory.map_mut_step cap self T kAccess Pointer s).2 = s ∧
    (∀ calls : σ → Nat, calls (Memory.map_mut_step cap self T kAccess Pointer s).2 = calls s) := by
  have hv : ¬ (kAccess = 1 ∨ kAccess = 2 ∨ kAccess = 3) := by
    rw [ReadWrite_eq, Read_eq, Write_eq] at h
    exact h
  have hstep : Memory.map_mut_step cap self T kAccess Pointer s
      = (.error "Invalid memory access!", s) := by
    simp [Memory.map_mut_step, map_mut_of_invalid cap self T kAccess Pointer hv]
  refine ⟨hstep, ?_, fun calls => ?_⟩ <;> rw [hstep]

/-- Witness of C5 at the flag value 4 on the recording allocator: no map call is
recorded. -/
theorem map_mut_invalid_access_leaves_allocator_untouched_witness :
    ¬ ((4 : Nat) = Memory.Access.Read ∨ (4 : Nat) = Memory.Access.Write ∨
      (4 : Nat) = (Memory.Access.Read ||| Memory.Access.Write)) ∧
    (Memory.map_mut_step recording sampleMemory float 4 none Recorder.empty).2.mapped.length
      = Recorder.empty.mapped.length :=
  ⟨by decide,
   (map_mut_invalid_access_leaves_allocator_untouched recording sampleMemory float 4 none
      Recorder.empty (by decide)).2.2 (fun r => r.mapped.length)⟩

/-- C10: for every Memory value `m` and both `map` overloads, the guard in the returned
handle is `Scope(m.allocator, m.allocation, access)`, the host pointer is the one the
allocator returns for `m.allocator` and `m.allocation`, releasing the guard unmaps (after
the flush of a Write mapping) that same allocation of that same allocator, and `m` is the
same value after the call. -/
theorem map_guard_is_built_from_receiver {σ : Type} (cap : AllocatorCapability σ)
    (m : Memory) (T : CType) (Pointer : Option CType) (kAccess : Memory.Access.Flags) (s : σ)
    (h : kAccess = Memory.Access.Read ∨ kAccess = Memory.Access.Write ∨
      kAccess = (Memory.Access.Read ||| Memory.Access.Write)) :
    ((Memory.map_const cap m T Pointer s).data.deleter
        = Memory.Scope.ctor m.allocator m.allocation Memory.Access.Read ∧
      (Memory.map_const cap m T Pointer s).data.deleter.allocator_ = m.allocator ∧
      (Memory.map_const cap m T Pointer s).data.deleter.allocation_ = m.allocation ∧
      (Memory.map_const cap m T Pointer s).data.payload
        = (cap.map m.allocator m.allocation s).1 ∧
      (Memory.map_const cap m T Pointer s).state = (cap.map m.allocator m.allocation s).2 ∧
      (∀ t : σ, (Memory.map_const cap m T Pointer s).data.deleter.release cap t
        = cap.unmap m.allocator m.allocation t) ∧
      (Memory.map_const cap m T Pointer s).self = m) ∧
    (∃ run, Memory.map_mut cap m T kAccess Pointer = .ok run ∧
      (run s).data.deleter = Memory.Scope.ctor m.allocator m.allocation kAccess ∧
      (run s).data.deleter.allocator_ = m.allocator ∧
      (run s).data.deleter.allocation_ = m.allocation ∧
      (run s).data.payload = (cap.map m.allocator m.allocation s).1 ∧
      (run s).state = (cap.map m.allocator m.allocation s).2 ∧
      (∀ t : σ, (run s).data.deleter.release cap t
        = cap.unmap m.allocator m.allocation
            (if 0 != (kAccess &&& Memory.Access.Write) then
              cap.flush m.allocator m.allocation t else t)) ∧
      (run s).self = m ∧
      (run s).self.allocator = m.allocator ∧
      (run s).self.allocation = m.allocation ∧
      (run s).self.allocation_info = m.allocation_info) := by
  have hv : kAccess = 1 ∨ kAccess = 2 ∨ kAccess = 3 := by
    rw [ReadWrite_eq, Read_eq, Write_eq] at h
    exact h
  have hr : (0 != (Memory.Access.Read &&& Memory.Access.Write)) = false := by decide
  refine ⟨⟨rfl, rfl, rfl, rfl, rfl,
      fun t => by simp [Memory.Scope.release, Memory.map_const, Memory.Scope.ctor, hr], rfl⟩,
    ⟨_, map_mut_of_valid cap m T kAccess Pointer hv, rfl, rfl, rfl, rfl, rfl, fun t => rfl,
      rfl, rfl, rfl, rfl⟩⟩

/-- Witness of C10 on the recording allocator: mapping allocation 7 for Write and
releasing the guard records a map, a flush and an unmap of allocation 7. -/
theorem map_guard_is_built_from_receiver_witness :
    (Memory.Access.Write = Memory.Access.Read ∨ Memory.Access.Write = Memory.Access.Write ∨
      Memory.Access.Write = (Memory.Access.Read ||| Memory.Access.Write)) ∧
    ∃ run, Memory.map_mut recording sampleMemory float Memory.Access.Write none = .ok run ∧
      (run Recorder.empty).data.deleter.release recording (run Recorder.empty).state
        = { mapped := [7], flushed := [7], unmapped := [7] } := by
  refine ⟨Or.inr (Or.inl rfl), ?_⟩
  obtain ⟨run, hrun, -, -, -, -, hstate, hrel, -⟩ :=
    (map_guard_is_built_from_receiver recording sampleMemory float none Memory.Access.Write
      Recorder.empty (Or.inr (Or.inl rfl))).2
  refine ⟨run, hrun, ?_⟩
  rw [hrel, hstate]
  rfl

/-! ## Validity of Buffer and Image -/

/-- C6: for every Buffer value, conversion to bool is true if and only if the native
handle differs from `VK_NULL_HANDLE`, and two Buffers with the same handle convert alike
whatever their Memory. -/
theorem Buffer_toBool_iff_handle_not_null (b : Buffer) :
    (b.toBool = true ↔ b.handle ≠ VK_NULL_HANDLE) ∧
    (b.toBool = false ↔ b.handle = VK_NULL_HANDLE) ∧
    (∀ memory : Memory, Buffer.toBool { handle := b.handle, memory := memory } = b.toBool) := by
  refine ⟨?_, ?_, fun memory => rfl⟩
  · simp only [Buffer.toBool, bne_iff_ne, ne_eq]
    exact ⟨fun h e => h e.symm, fun h e => h e.symm⟩
  · simp only [Buffer.toBool, bne_eq_false_iff_eq]
    exact ⟨fun h => h.symm, fun h => h.symm⟩

/-- C7: for every Image value, conversion to bool is true if and only if the native handle
differs from `VK_NULL_HANDLE`, whatever the view and the Memory: a non-null handle with a
null view is valid, a null handle with a non-null view is not. -/
theorem Image_toBool_iff_handle_not_null (i : Image) :
    (i.toBool = true ↔ i.handle ≠ VK_NULL_HANDLE) ∧
    (i.toBool = false ↔ i.handle = VK_NULL_HANDLE) ∧
    (∀ (view : VkImageView) (memory : Memory),
      Image.toBool { handle := i.handle, view := view, memory := memory } = i.toBool) ∧
    (∀ (handle : VkImage) (memory : Memory), handle ≠ VK_NULL_HANDLE →
      Image.toBool { handle := handle, view := VK_NULL_HANDLE, memory := memory } = true) ∧
    (∀ (view : VkImageView) (memory : Memory),
      Image.toBool { handle := VK_NULL_HANDLE, view := view, memory := memory } = false) := by
  refine ⟨?_, ?_, fun view memory => rfl, fun handle memory hne => ?_, fun view memory => rfl⟩
  · simp only [Image.toBool, bne_iff_ne, ne_eq]
    exact ⟨fun h e => h e.symm, fun h e => h e.symm⟩
  · simp only [Image.toBool, bne_eq_false_iff_eq]
    exact ⟨fun h => h.symm, fun h => h.symm⟩
  · simp only [Image.toBool, bne_iff_ne, ne_eq]
    exact fun e => hne e.symm

/-- Witness of C7: handle 5 with a null view is valid; a null handle with view 9 is not. -/
theorem Image_toBool_iff_handle_not_null_witness :
    (5 : Nat) ≠ VK_NULL_HANDLE ∧
    Image.toBool { handle := 5, view := VK_NULL_HANDLE, memory := sampleMemory } = true ∧
    Image.toBool { handle := VK_NULL_HANDLE, view := 9, memory := sampleMemory } = false :=
  ⟨by decide,
   (Image_toBool_iff_handle_not_null ⟨5, 0, sampleMemory⟩).2.2.2.1 5 sampleMemory (by decide),
   (Image_toBool_iff_handle_not_null ⟨5, 0, sampleMemory⟩).2.2.2.2 9 sampleMemory⟩

/-! ## Overload resolution of `map` on a temporary -/

/-- How the overload set resolves typical calls: on a named Memory the two defined
overloads are chosen; on a temporary a call that spells out every template argument
chooses a deleted overload, and a call with a flag value but no pointer type finds no
match. -/
theorem resolve_examples :
    resolve map_decls ⟨true, false⟩ [.type float] = .selected decl_map_const ∧
    resolve map_decls ⟨false, false⟩ [.type float] = .selected decl_map_const ∧
    resolve map_decls ⟨false, false⟩ [.type float, .value 2] = .selected decl_map_mut ∧
    resolve map_decls ⟨false, false⟩ [.type float, .value 2, .type floatPtr]
      = .selected decl_map_mut ∧
    resolve map_decls ⟨true, false⟩ [.type float, .value 2] = .noMatch ∧
    resolve map_decls ⟨false, true⟩ [.type float, .type floatPtr]
      = .deletedSelected decl_map_const_rvalue ∧
    resolve map_decls ⟨true, true⟩ [.type float, .type floatPtr]
      = .deletedSelected decl_map_const_rvalue ∧
    resolve map_decls ⟨false, true⟩ [.type float, .value 2, .type floatPtr]
      = .deletedSelected decl_map_mut_rvalue ∧
    resolve map_decls ⟨false, true⟩ [.type float, .value 2] = .noMatch ∧
    resolve map_decls ⟨true, true⟩ [.type float, .value 2, .type floatPtr] = .noMatch := by
  decide

/-- C8, where the code departs from it: a call `map<T>()` whose receiver is an expiring
Memory value, const or not, does not select a deleted overload. The deleted `const &&`
template gives `Pointer` no default, so it is no candidate; the call resolves to the
defined `map() const &` and compiles. -/
theorem map_on_temporary_selects_const_lvalue_overload :
    (∀ (T : CType) (receiverIsConst : Bool),
      resolve map_decls ⟨receiverIsConst, true⟩ [.type T] = .selected decl_map_const) ∧
    decl_map_const.isDeleted = false ∧
    (∀ (T : CType) (receiverIsConst : Bool),
      callResolves ⟨receiverIsConst, true⟩ [.type T] = true) ∧
    (Memory.map_const recording sampleMemory float none Recorder.empty).data
      = { Pointer := .pointer constFloat false, payload := 28672,
          deleter := { allocator_ := 1, allocation_ := 7, access_ := 1 } } := by
  refine ⟨fun T c => ?_, rfl, fun T c => ?_, by decide⟩
  · cases c <;> rfl
  · cases c <;> rfl

/-! ## Purging a Pool -/

theorem purge_registries_empty {σ : Type} (pool : Pool σ) (s : σ) :
    (pool.purge s).1.buffers_ = [] ∧ (pool.purge s).1.images_ = [] ∧
    (pool.purge s).1.allocator_ = pool.allocator_ ∧
    (pool.purge s).1.device_ = pool.device_ :=
  ⟨rfl, rfl, rfl, rfl⟩

theorem allocate_buffer_of_accepted {σ : Type} (cap : ResourceCapability σ) (pool : Pool σ)
    (d : Buffer.Descriptor) (s t : σ) (handle : VkBuffer) (allocation : VmaAllocation)
    (info : VmaAllocationInfo)
    (h : cap.createBuffer pool.allocator_ d s = (some (handle, allocation, info), t)) :
    (Pool.allocate_buffer cap pool d s).1 = .ok ⟨handle, ⟨pool.allocator_, allocation, info⟩⟩ ∧
    registered (Pool.allocate_buffer cap pool d s).2.1.buffers_
      = registered pool.buffers_ ++ [⟨handle, ⟨pool.allocator_, allocation, info⟩⟩] ∧
    (Pool.allocate_buffer cap pool d s).2.1.images_ = pool.images_ ∧
    (Pool.allocate_buffer cap pool d s).2.2 = t := by
  simp [Pool.allocate_buffer, h, registered]

theorem allocate_image_of_accepted {σ : Type} (cap : ResourceCapability σ) (pool : Pool σ)
    (d : Image.Descriptor) (s s1 t : σ) (handle : VkImage) (allocation : VmaAllocation)
    (info : VmaAllocationInfo) (view : VkImageView)
    (h : cap.createImage pool.allocator_ d s = (some (handle, allocation, info), s1))
    (hv : cap.createImageView pool.device_ handle d s1 = (some view, t)) :
    (Pool.allocate_image cap pool d s).1
      = .ok ⟨handle, view, ⟨pool.allocator_, allocation, info⟩⟩ ∧
    registered (Pool.allocate_image cap pool d s).2.1.images_
      = registered pool.images_ ++ [⟨handle, view, ⟨pool.allocator_, allocation, info⟩⟩] ∧
    (Pool.allocate_image cap pool d s).2.1.buffers_ = pool.buffers_ ∧
    (Pool.allocate_image cap pool d s).2.2 = t := by
  simp [Pool.allocate_image, h, hv, registered]

theorem allocate_buffer_keeps_owner {σ : Type} (cap : ResourceCapability σ) (pool : Pool σ)
    (d : Buffer.Descriptor) (s : σ) :
    (Pool.allocate_buffer cap pool d s).2.1.allocator_ = pool.allocator_ ∧
    (Pool.allocate_buffer cap pool d s).2.1.device_ = pool.device_ := by
  unfold Pool.allocate_buffer
  rcases hc : cap.createBuffer pool.allocator_ d s with ⟨_ | ⟨handle, allocation, info⟩, s1⟩
  · exact ⟨rfl, rfl⟩
  · exact ⟨rfl, rfl⟩

theorem allocate_image_keeps_owner {σ : Type} (cap : ResourceCapability σ) (pool : Pool σ)
    (d : Image.Descriptor) (s : σ) :
    (Pool.allocate_image cap pool d s).2.1.allocator_ = pool.allocator_ ∧
    (Pool.allocate_image cap pool d s).2.1.device_ = pool.device_ := by
  unfold Pool.allocate_image
  split
  · exact ⟨rfl, rfl⟩
  · split <;> exact ⟨rfl, rfl⟩

theorem run_keeps_owner {σ : Type} (cap : ResourceCapability σ) (requests : List Request) :
    ∀ (pool : Pool σ) (s : σ),
      (Pool.run cap requests pool s).1.allocator_ = pool.allocator_ ∧
      (Pool.run cap requests pool s).1.device_ = pool.device_ := by
  induction requests with
  | nil => intro pool s; exact ⟨rfl, rfl⟩
  | cons r rest ih =>
    intro pool s
    cases r with
    | buffer d =>
      have h := allocate_buffer_keeps_owner cap pool d s
      have h2 := ih (Pool.allocate_buffer cap pool d s).2.1 (Pool.allocate_buffer cap pool d s).2.2
      exact ⟨h2.1.trans h.1, h2.2.trans h.2⟩
    | image d =>
      have h := allocate_image_keeps_owner cap pool d s
      have h2 := ih (Pool.allocate_image cap pool d s).2.1 (Pool.allocate_image cap pool d s).2.2
      exact ⟨h2.1.trans h.1, h2.2.trans h.2⟩

theorem purgedAfter_owner {σ : Type} (cap : ResourceCapability σ) (device : VkDevice)
    (allocator : VmaAllocator) (requests : List Request) (s0 : σ) :
    (purgedAfter cap device allocator requests s0).1.allocator_ = allocator ∧
    (purgedAfter cap device allocator requests s0).1.device_ = device :=
  run_keeps_owner cap requests (Pool.init device allocator) s0

/-- C9: for every Pool state reached from a new Pool by a sequence of `allocate` calls,
`purge` leaves the buffer registry and the image registry empty and the Pool with its
device and allocator; and an `allocate` that follows, with a descriptor the allocator
accepts, succeeds and leaves a registry that holds exactly the one new entry, the other
registry staying empty. -/
theorem purge_empties_registries_and_pool_stays_usable {σ : Type}
    (cap : ResourceCapability σ) (device : VkDevice) (allocator : VmaAllocator)
    (requests : List Request) (s0 : σ) :
    (purgedAfter cap device allocator requests s0).1.buffers_ = [] ∧
    (purgedAfter cap device allocator requests s0).1.images_ = [] ∧
    (purgedAfter cap device allocator requests s0).1.allocator_ = allocator ∧
    (purgedAfter cap device allocator requests s0).1.device_ = device ∧
    (∀ (d : Buffer.Descriptor) (handle : VkBuffer) (allocation : VmaAllocation)
        (info : VmaAllocationInfo) (t : σ),
      cap.createBuffer allocator d (purgedAfter cap device allocator requests s0).2
          = (some (handle, allocation, info), t) →
      ∃ b : Buffer,
        (Pool.allocate_buffer cap (purgedAfter cap device allocator requests s0).1 d
            (purgedAfter cap device allocator requests s0).2).1 = .ok b ∧
        b.handle = handle ∧
        registered (Pool.allocate_buffer cap (purgedAfter cap device allocator requests s0).1 d
            (purgedAfter cap device allocator requests s0).2).2.1.buffers_ = [b] ∧
        (Pool.allocate_buffer cap (purgedAfter cap device allocator requests s0).1 d
            (purgedAfter cap device allocator requests s0).2).2.1.images_ = []) ∧
    (∀ (d : Image.Descriptor) (handle : VkImage) (allocation : VmaAllocation)
        (info : VmaAllocationInfo) (s1 t : σ) (view : VkImageView),
      cap.createImage allocator d (purgedAfter cap device allocator requests s0).2
          = (some (handle, allocation, info), s1) →
      cap.createImageView device handle d s1 = (some view, t) →
      ∃ i : Image,
        (Pool.allocate_image cap (purgedAfter cap device allocator requests s0).1 d
            (purgedAfter cap device allocator requests s0).2).1 = .ok i ∧
        i.handle = handle ∧ i.view = view ∧
        registered (Pool.allocate_image cap (purgedAfter cap device allocator requests s0).1 d
            (purgedAfter cap device allocator requests s0).2).2.1.images_ = [i] ∧
        (Pool.allocate_image cap (purgedAfter cap device allocator requests s0).1 d
            (purgedAfter cap device allocator requests s0).2).2.1.buffers_ = []) := by
  obtain ⟨ha, hd⟩ := purgedAfter_owner cap device allocator requests s0
  have hb : (purgedAfter cap device allocator requests s0).1.buffers_ = [] := rfl
  have hi : (purgedAfter cap device allocator requests s0).1.images_ = [] := rfl
  refine ⟨hb, hi, ha, hd, ?_, ?_⟩
  · intro d handle allocation info t h
    obtain ⟨h1, h2, h3, -⟩ :=
      allocate_buffer_of_accepted cap (purgedAfter cap device allocator requests s0).1 d
        (purgedAfter cap device allocator requests s0).2 t handle allocation info
        (by rw [ha]; exact h)
    rw [hb] at h2
    rw [hi] at h3
    exact ⟨_, h1, rfl, by simpa [registered] using h2, h3⟩
  · intro d handle allocation info s1 t view h hv
    obtain ⟨h1, h2, h3, -⟩ :=
      allocate_image_of_accepted cap (purgedAfter cap device allocator requests s0).1 d
        (purgedAfter cap device allocator requests s0).2 s1 t handle allocation info view
        (by rw [ha]; exact h) (by rw [hd]; exact hv)
    rw [hi] at h2
    rw [hb] at h3
    exact ⟨_, h1, rfl, rfl, by simpa [registered] using h2, h3⟩

/-- Witness of C9 on the bump allocator: after two buffers and an image are allocated
and the Pool is purged, the three handles were destroyed, and allocating a buffer of 32
bytes succeeds with the fresh handle 5. -/
theorem purge_empties_registries_and_pool_stays_usable_witness :
    registered (Pool.run bump sampleRequests (Pool.init 1 2) ⟨0, []⟩).1.buffers_
      = [⟨1, ⟨2, 1, ⟨0, 16⟩⟩⟩, ⟨4, ⟨2, 4, ⟨0, 8⟩⟩⟩] ∧
    (purgedAfter bump 1 2 sampleRequests ⟨0, []⟩).2 = ⟨4, [2, 4, 1]⟩ ∧
    bump.createBuffer 2 ⟨32, 0, 0⟩ (purgedAfter bump 1 2 sampleRequests ⟨0, []⟩).2
      = (some (5, 5, ⟨0, 32⟩), ⟨5, [2, 4, 1]⟩) ∧
    ∃ b : Buffer,
      (Pool.allocate_buffer bump (purgedAfter bump 1 2 sampleRequests ⟨0, []⟩).1 ⟨32, 0, 0⟩
        (purgedAfter bump 1 2 sampleRequests ⟨0, []⟩).2).1 = .ok b ∧
      b.handle = 5 ∧
      registered (Pool.allocate_buffer bump (purgedAfter bump 1 2 sampleRequests ⟨0, []⟩).1
        ⟨32, 0, 0⟩ (purgedAfter bump 1 2 sampleRequests ⟨0, []⟩).2).2.1.buffers_ = [b] := by
  refine ⟨by decide, by decide, by decide, ?_⟩
  obtain ⟨b, hb, hh, hr, -⟩ :=
    (purge_empties_registries_and_pool_stays_usable bump 1 2 sampleRequests
      ⟨0, []⟩).2.2.2.2.1 ⟨32, 0, 0⟩ 5 5 ⟨0, 32⟩ ⟨5, [2, 4, 1]⟩ (by decide)
  exact ⟨b, hb, hh, hr⟩

end Resource
